import Mathlib

/-!
Verification development for the graph-instance registries of the
BankingFinanceWebApp browser interop scripts.

Each JavaScript registry is shallowly embedded as explicit state passing
over executable definitions:

* `D3Graph`            — the module-level `graphInstances` registry of
                         src/js/d3-network-graph.js;
* `JourneyBuilder`     — `window.journeyBuilderGraph` of
                         src/js/journey-builder-graph.js (vis.js DataSet backed);
* `CustomerNetwork`    — `window.customerNetworkGraph` of src/js/theme.js;
* `RelationshipGraph`  — the `networkInstances` registry of the relationship
                         graph script (renderRelationshipGraph and friends).

External rendering handles (vis.Network / d3 simulation+svg objects) are
modelled as natural-number tokens; destroying a handle records it in a
`released` list, so leak/release behaviour is observable.  DOM containers are
modelled as a list of resolvable container ids.  JavaScript objects used as
string-keyed dictionaries are modelled as association lists with the
`lookupA`/`insertA`/`eraseA` operations below.
-/

/-! ## String-keyed association maps (JS plain-object registries) -/

def lookupA {α : Type} (k : String) : List (String × α) → Option α
  | [] => none
  | (k', v) :: rest => if k = k' then some v else lookupA k rest

def insertA {α : Type} (k : String) (v : α) : List (String × α) → List (String × α)
  | [] => [(k, v)]
  | (k', v') :: rest => if k = k' then (k, v) :: rest else (k', v') :: insertA k v rest

def eraseA {α : Type} (k : String) : List (String × α) → List (String × α)
  | [] => []
  | (k', v') :: rest => if k = k' then eraseA k rest else (k', v') :: eraseA k rest

/-! ## The d3 force-graph registry (src/js/d3-network-graph.js) -/

namespace D3Graph

/-- A node stored in a d3 graph instance: its `id` plus the remaining
JavaScript object fields, modelled as a string-keyed field map (the claims
never inspect particular display fields of d3 nodes). -/
structure D3Node where
  id : String
  attrs : List (String × String) := []
deriving DecidableEq

/-- A link as `removeNode` sees it after d3 force processing: `l.source` and
`l.target` are node objects, of which only the `id` fields are read. -/
structure D3Link where
  sourceId : String
  targetId : String
deriving DecidableEq

/-- One entry of `graphInstances`: the svg/simulation pair is the external
handle; `nodes` and `links` are the instance-owned data arrays. -/
structure Inst where
  handle : Nat
  nodes : List D3Node := []
  links : List D3Link := []
deriving DecidableEq

/-- The module state: the `graphInstances` object plus the record of external
handles that have been released (simulation stopped, container cleared). -/
structure St where
  graphInstances : List (String × Inst) := []
  released : List Nat := []
deriving DecidableEq

/-- js `Object.assign(node, updates)` at the level of the node's field map:
each key of `updates`, in order, overwrites the corresponding field. -/
def assignAttrs (a u : List (String × String)) : List (String × String) :=
  u.foldl (fun acc kv => insertA kv.fst kv.snd acc) a

/-- js `nodes.find(n => n.id === nodeId)` followed by `Object.assign`:
mutates the first node whose id matches, leaves the rest alone. -/
def updateFirst (nid : String) (u : List (String × String)) : List D3Node → List D3Node
  | [] => []
  | n :: ns =>
      if n.id = nid then { n with attrs := assignAttrs n.attrs u } :: ns
      else n :: updateFirst nid u ns

/-- js `removeNode(containerId, nodeId)`: filters the node out of
`instance.nodes` and every link touching it out of `instance.links`
(`l.source.id !== nodeId && l.target.id !== nodeId`), then re-renders. -/
def removeNode (cid nid : String) (s : St) : Bool × St :=
  match lookupA cid s.graphInstances with
  | none => (false, s)
  | some inst =>
      let inst' : Inst :=
        { inst with
          nodes := inst.nodes.filter (fun n => decide (n.id ≠ nid)),
          links := inst.links.filter (fun l => decide (l.sourceId ≠ nid ∧ l.targetId ≠ nid)) }
      (true, { s with graphInstances := insertA cid inst' s.graphInstances })

/-- js `updateNode(containerId, nodeId, updates)`: merges `updates` onto the
first node found with the given id; when no node matches, nothing changes;
either way the function returns `true` once the instance was found. -/
def updateNode (cid nid : String) (u : List (String × String)) (s : St) : Bool × St :=
  match lookupA cid s.graphInstances with
  | none => (false, s)
  | some inst =>
      if (inst.nodes.find? (fun n => n.id == nid)).isSome then
        let inst' : Inst := { inst with nodes := updateFirst nid u inst.nodes }
        (true, { s with graphInstances := insertA cid inst' s.graphInstances })
      else
        (true, s)

/-- js `focusNode(containerId, nodeId)`: returns `false` when either the
instance or the node is missing; otherwise only runs a view transition
(no registry data changes) and returns `true`. -/
def focusNode (cid nid : String) (s : St) : Bool × St :=
  match lookupA cid s.graphInstances with
  | none => (false, s)
  | some inst =>
      if (inst.nodes.find? (fun n => n.id == nid)).isSome then (true, s)
      else (false, s)

/-- js `destroy(containerId)`: stops the simulation and clears the container
(releasing the external handle), deletes the registry entry and returns
`true`; returns `false` when there is no instance. -/
def destroy (cid : String) (s : St) : Bool × St :=
  match lookupA cid s.graphInstances with
  | none => (false, s)
  | some inst =>
      (true, { s with graphInstances := eraseA cid s.graphInstances,
                      released := inst.handle :: s.released })

end D3Graph

/-! ## The journey builder registry (src/js/journey-builder-graph.js)

Backed by vis.js DataSets: items keyed by unique `id`; `add` raises on a
duplicate id, `update` merges onto an existing item or inserts a new one
(upsert), `remove` deletes by id, `get()` lists the items.  Operations that
can raise (an uncaught vis.DataSet error) return `Option`; `none` means the
exception propagated to the caller. -/

namespace JourneyBuilder

/-- A vis.js DataSet node record for the journey builder.  `Option` fields
model JavaScript object keys that may be absent; `type` is the journey node
tag ("Start", "End", "SendEmail", ...).  The visual icon object is collapsed
to its FontAwesome code point, the color object to its
background/border strings. -/
structure JNode where
  id : String
  type : Option String := none
  label : Option String := none
  shape : Option String := none
  background : Option String := none
  border : Option String := none
  iconCode : Option String := none
  fontColor : Option String := none
  fontSize : Option Nat := none
  borderWidth : Option Nat := none
  borderWidthSelected : Option Nat := none
deriving DecidableEq

/-- A vis.js DataSet edge record; `fromId`/`toId` are the js `from`/`to`
fields, the color object is collapsed to its `color`/`highlight` strings. -/
structure JEdge where
  id : String
  fromId : String
  toId : String
  label : Option String := none
  width : Option Nat := none
  colorColor : Option String := none
  colorHighlight : Option String := none
deriving DecidableEq

/-- vis.DataSet.update merge for nodes: keys present in the update object
overwrite, absent keys keep the stored value (the id is the match key). -/
def mergeNode (old upd : JNode) : JNode :=
  { id := old.id
    type := upd.type.orElse (fun _ => old.type)
    label := upd.label.orElse (fun _ => old.label)
    shape := upd.shape.orElse (fun _ => old.shape)
    background := upd.background.orElse (fun _ => old.background)
    border := upd.border.orElse (fun _ => old.border)
    iconCode := upd.iconCode.orElse (fun _ => old.iconCode)
    fontColor := upd.fontColor.orElse (fun _ => old.fontColor)
    fontSize := upd.fontSize.orElse (fun _ => old.fontSize)
    borderWidth := upd.borderWidth.orElse (fun _ => old.borderWidth)
    borderWidthSelected := upd.borderWidthSelected.orElse (fun _ => old.borderWidthSelected) }

/-- vis.DataSet.add for a single node: raises (returns `none`) when an item
with the same id already exists, otherwise appends. -/
def dsAddNode (n : JNode) (ns : List JNode) : Option (List JNode) :=
  if (ns.find? (fun m => m.id == n.id)).isSome then none else some (ns ++ [n])

/-- vis.DataSet.add for an array of nodes, left to right. -/
def dsAddNodes (new : List JNode) (ns : List JNode) : Option (List JNode) :=
  match new with
  | [] => some ns
  | n :: rest =>
      match dsAddNode n ns with
      | none => none
      | some ns' => dsAddNodes rest ns'

/-- vis.DataSet.update for a node: merge when the id exists, insert
otherwise (upsert). -/
def dsUpdateNode (upd : JNode) (ns : List JNode) : List JNode :=
  if (ns.find? (fun n => n.id == upd.id)).isSome then
    ns.map (fun n => if n.id = upd.id then mergeNode n upd else n)
  else ns ++ [upd]

/-- vis.DataSet.remove for a node id. -/
def dsRemoveNode (nid : String) (ns : List JNode) : List JNode :=
  ns.filter (fun n => decide (n.id ≠ nid))

/-- vis.DataSet.add for a single edge. -/
def dsAddEdge (e : JEdge) (es : List JEdge) : Option (List JEdge) :=
  if (es.find? (fun e2 => e2.id == e.id)).isSome then none else some (es ++ [e])

/-- vis.DataSet.add for an array of edges, left to right. -/
def dsAddEdges (new : List JEdge) (es : List JEdge) : Option (List JEdge) :=
  match new with
  | [] => some es
  | e :: rest =>
      match dsAddEdge e es with
      | none => none
      | some es' => dsAddEdges rest es'

/-- vis.DataSet.remove for an edge id. -/
def dsRemoveEdge (eid : String) (es : List JEdge) : List JEdge :=
  es.filter (fun e => decide (e.id ≠ eid))

/-- One row of the per-type style table of `styleNode`. -/
structure NodeStyle where
  background : String
  border : String
  shape : Option String
  iconCode : String

/-- The `styles` lookup table of js `styleNode` (color, shape, icon per
journey node type). -/
def styles (t : String) : Option NodeStyle :=
  if t = "Start" then some { background := "#4CAF50", border := "#388E3C", shape := some "ellipse", iconCode := "" }
  else if t = "SendEmail" then some { background := "#2196F3", border := "#1976D2", shape := none, iconCode := "" }
  else if t = "SendSMS" then some { background := "#00BCD4", border := "#0097A7", shape := none, iconCode := "" }
  else if t = "Wait" then some { background := "#FF9800", border := "#F57C00", shape := none, iconCode := "" }
  else if t = "DecisionSplit" then some { background := "#FFC107", border := "#FFA000", shape := some "diamond", iconCode := "" }
  else if t = "ABTest" then some { background := "#9C27B0", border := "#7B1FA2", shape := some "diamond", iconCode := "" }
  else if t = "UpdateProfile" then some { background := "#3F51B5", border := "#303F9F", shape := none, iconCode := "" }
  else if t = "End" then some { background := "#F44336", border := "#D32F2F", shape := some "ellipse", iconCode := "" }
  else none

/-- The fallback style used when the node type has no table entry. -/
def defaultStyle : NodeStyle :=
  { background := "#607D8B", border := "#455A64", shape := none, iconCode := "" }

/-- js `styleNode(node)`: `{...node, ...style, font: {color, size}}` — the
style spread overwrites the node's color/icon (and shape when the style has
one); id, type, label and any other caller fields survive. -/
def styleNode (node : JNode) : JNode :=
  let style : NodeStyle :=
    match node.type with
    | some t => (styles t).getD defaultStyle
    | none => defaultStyle
  { node with
    background := some style.background
    border := some style.border
    shape := (style.shape).orElse (fun _ => node.shape)
    iconCode := some style.iconCode
    fontColor := some "#ffffff"
    fontSize := some 14 }

/-- One entry of `this.networks`: a vis.Network with its node/edge DataSets,
the external rendering handle, the physics flag and the selection that
`selectNodes` maintains. -/
structure Net where
  handle : Nat
  nodes : List JNode := []
  edges : List JEdge := []
  physics : Bool := true
  selected : List String := []
deriving DecidableEq

/-- The `journeyBuilderGraph` object state: the `networks` and `dotNetRefs`
registries plus the released-handle record. -/
structure St where
  networks : List (String × Net) := []
  dotNetRefs : List String := []
  released : List Nat := []
deriving DecidableEq

/-- js `addNode(containerId, nodeData)`: styles the node and adds it to the
nodes DataSet; `false` when the instance is unknown. -/
def addNode (cid : String) (nodeData : JNode) (s : St) : Option (Bool × St) :=
  match lookupA cid s.networks with
  | none => some (false, s)
  | some net =>
      match dsAddNode (styleNode nodeData) net.nodes with
      | none => none
      | some ns => some (true, { s with networks := insertA cid { net with nodes := ns } s.networks })

/-- js `addEdge(containerId, edgeData)`: adds the edge as given. -/
def addEdge (cid : String) (edgeData : JEdge) (s : St) : Option (Bool × St) :=
  match lookupA cid s.networks with
  | none => some (false, s)
  | some net =>
      match dsAddEdge edgeData net.edges with
      | none => none
      | some es => some (true, { s with networks := insertA cid { net with edges := es } s.networks })

/-- js `removeNode(containerId, nodeId)`: `nodes.remove(nodeId)` only — the
edges DataSet and the selection are not touched. -/
def removeNode (cid nid : String) (s : St) : Bool × St :=
  match lookupA cid s.networks with
  | none => (false, s)
  | some net =>
      (true, { s with networks := insertA cid { net with nodes := dsRemoveNode nid net.nodes } s.networks })

/-- js `removeEdge(containerId, edgeId)`. -/
def removeEdge (cid eid : String) (s : St) : Bool × St :=
  match lookupA cid s.networks with
  | none => (false, s)
  | some net =>
      (true, { s with networks := insertA cid { net with edges := dsRemoveEdge eid net.edges } s.networks })

/-- js `updateNode(containerId, nodeId, updates)`: builds
`styleNode({...updates, id: nodeId})` and hands it to `DataSet.update`,
which upserts. -/
def updateNode (cid nid : String) (updates : JNode) (s : St) : Bool × St :=
  match lookupA cid s.networks with
  | none => (false, s)
  | some net =>
      let styledUpdates := styleNode { updates with id := nid }
      (true, { s with networks := insertA cid { net with nodes := dsUpdateNode styledUpdates net.nodes } s.networks })

/-- js `loadData(containerId, journeyData)`: clears both DataSets, then adds
the styled nodes and the edges (when the arrays are nonempty); the deferred
`network.fit` is a view-only animation. -/
def loadData (cid : String) (jNodes : List JNode) (jEdges : List JEdge) (s : St) : Option (Bool × St) :=
  match lookupA cid s.networks with
  | none => some (false, s)
  | some net =>
      let cleared : List JNode := []
      let clearedE : List JEdge := []
      match (if jNodes.length > 0 then dsAddNodes (jNodes.map styleNode) cleared else some cleared) with
      | none => none
      | some ns =>
          match (if jEdges.length > 0 then dsAddEdges jEdges clearedE else some clearedE) with
          | none => none
          | some es => some (true, { s with networks := insertA cid { net with nodes := ns, edges := es } s.networks })

/-- js `getData(containerId)`: `null` when the instance is unknown, else the
current contents of both DataSets. -/
def getData (cid : String) (s : St) : Option (List JNode × List JEdge) :=
  match lookupA cid s.networks with
  | none => none
  | some net => some (net.nodes, net.edges)

/-- js `focusNode(containerId, nodeId)`: forwards `focus` (a view animation)
and `selectNodes([nodeId])` to the network without checking that the node
exists, and returns `true` whenever the instance exists. -/
def focusNode (cid nid : String) (s : St) : Bool × St :=
  match lookupA cid s.networks with
  | none => (false, s)
  | some net =>
      (true, { s with networks := insertA cid { net with selected := [nid] } s.networks })

/-- The node-side effect of js `resetHighlight`: every node is updated to
`borderWidth: 2, borderWidthSelected: 3`. -/
def resetNodes (ns : List JNode) : List JNode :=
  ns.map (fun n => { n with borderWidth := some 2, borderWidthSelected := some 3 })

/-- The edge-side effect of js `resetHighlight`: every edge is updated to
`width: 2, color: {color: '#848484', highlight: '#2B7CE9'}`. -/
def resetEdges (es : List JEdge) : List JEdge :=
  es.map (fun e => { e with width := some 2, colorColor := some "#848484", colorHighlight := some "#2B7CE9" })

/-- js `resetHighlight(containerId)`. -/
def resetHighlight (cid : String) (s : St) : Bool × St :=
  match lookupA cid s.networks with
  | none => (false, s)
  | some net =>
      let net' : Net := { net with nodes := resetNodes net.nodes, edges := resetEdges net.edges }
      (true, { s with networks := insertA cid net' s.networks })

/-- The consecutive-pair edge pass of js `highlightPath`: for each adjacent
pair `(nodeIds[i], nodeIds[i+1])`, every edge with exactly that `from`/`to`
is updated to `width: 4, color: {color: '#FF5722', highlight: '#FF5722'}`. -/
def highlightConsecutive : List String → List JEdge → List JEdge
  | a :: b :: rest, es =>
      highlightConsecutive (b :: rest)
        (es.map (fun e =>
          if e.fromId = a ∧ e.toId = b then
            { e with width := some 4, colorColor := some "#FF5722", colorHighlight := some "#FF5722" }
          else e))
  | _, es => es

/-- js `highlightPath(containerId, nodeIds)`: resets all highlights, then
widens the border of each listed node that exists, then runs the
consecutive-pair edge pass. -/
def highlightPath (cid : String) (nodeIds : List String) (s : St) : Bool × St :=
  match lookupA cid s.networks with
  | none => (false, s)
  | some net =>
      let ns0 := resetNodes net.nodes
      let es0 := resetEdges net.edges
      let ns := ns0.map (fun n =>
        if n.id ∈ nodeIds then { n with borderWidth := some 5, borderWidthSelected := some 6 } else n)
      let es := highlightConsecutive nodeIds es0
      (true, { s with networks := insertA cid { net with nodes := ns, edges := es } s.networks })

/-- js `clear(containerId)`: empties both DataSets, keeps the instance. -/
def clear (cid : String) (s : St) : Bool × St :=
  match lookupA cid s.networks with
  | none => (false, s)
  | some net =>
      (true, { s with networks := insertA cid { net with nodes := [], edges := [] } s.networks })

/-- js `setPhysics(containerId, enabled)`. -/
def setPhysics (cid : String) (enabled : Bool) (s : St) : Bool × St :=
  match lookupA cid s.networks with
  | none => (false, s)
  | some net =>
      (true, { s with networks := insertA cid { net with physics := enabled } s.networks })

/-- js `exportToPNG(containerId)`: `null` when the instance is unknown, else
the canvas serialization (opaque here, the canvas belongs to the external
handle). -/
def exportToPNG (cid : String) (s : St) : Option String :=
  match lookupA cid s.networks with
  | none => none
  | some _ => some "data:image/png;base64,"

/-- The structured result of js `validate`. -/
structure Validation where
  valid : Bool
  errors : List String
  warnings : List String
deriving DecidableEq

/-- Interpolation of `node.label` in a js template literal: an absent label
prints as "undefined". -/
def labelText (n : JNode) : String :=
  match n.label with
  | some l => l
  | none => "undefined"

/-- The per-node connectivity check of js `validate`: a non-Start/non-End
node contributes one error when it lacks incoming and/or outgoing edges. -/
def nodeError (edges : List JEdge) (n : JNode) : Option String :=
  if n.type ≠ some "Start" ∧ n.type ≠ some "End" then
    let hasIncoming := edges.any (fun e => e.toId == n.id)
    let hasOutgoing := edges.any (fun e => e.fromId == n.id)
    if !hasIncoming && !hasOutgoing then some ("Node \"" ++ labelText n ++ "\" is not connected")
    else if !hasIncoming then some ("Node \"" ++ labelText n ++ "\" has no incoming connections")
    else if !hasOutgoing then some ("Node \"" ++ labelText n ++ "\" has no outgoing connections")
    else none
  else none

/-- js `validate(containerId)`: a derived check over the current DataSet
contents (reads only); `valid` is `errors.length === 0`. -/
def validate (cid : String) (s : St) : Validation :=
  match lookupA cid s.networks with
  | none => { valid := false, errors := ["Network not found"], warnings := [] }
  | some net =>
      let nodes := net.nodes
      let edges := net.edges
      let startNodes := nodes.filter (fun n => n.type == some "Start")
      let startErrs : List String :=
        if startNodes.length = 0 then ["Journey must have a Start node"]
        else if startNodes.length > 1 then ["Journey can only have one Start node"]
        else []
      let endNodes := nodes.filter (fun n => n.type == some "End")
      let endErrs : List String :=
        if endNodes.length = 0 then ["Journey must have at least one End node"] else []
      let nodeErrs := nodes.filterMap (nodeError edges)
      let errors := startErrs ++ endErrs ++ nodeErrs
      { valid := errors.length == 0, errors := errors, warnings := [] }

/-- js `destroy(containerId)`: destroys the network and deletes both registry
entries when the instance exists — but returns `true` unconditionally. -/
def destroy (cid : String) (s : St) : Bool × St :=
  match lookupA cid s.networks with
  | some net =>
      (true, { s with networks := eraseA cid s.networks,
                      dotNetRefs := s.dotNetRefs.filter (fun r => decide (r ≠ cid)),
                      released := net.handle :: s.released })
  | none => (true, s)

end JourneyBuilder

/-! ## The customer network registry (src/js/theme.js, `customerNetworkGraph`)

Every method body is wrapped in try/catch in the source; in this embedding
the modelled paths never raise, so the catch branches are dead.  Opacity is
recorded in tenths: `10` is the js `1.0`, `3` is the js `0.3`. -/

namespace CustomerNetwork

/-- A node in the instance's vis DataSet; only the fields the claims observe
(`id` and the `opacity` written by `highlightPath`/`resetHighlight`) are
tracked, the rest of the record belongs to the styling tables. -/
structure TNode where
  id : String
  opacity : Option Nat := none
deriving DecidableEq

/-- An edge in the instance's vis DataSet (`fromId`/`toId` are js
`from`/`to`). -/
structure TEdge where
  id : String
  fromId : String
  toId : String
  opacity : Option Nat := none
deriving DecidableEq

/-- One entry of `this.instances`: the vis.Network external handle plus the
node/edge DataSets stored alongside it. -/
structure Inst where
  handle : Nat
  nodes : List TNode := []
  edges : List TEdge := []
deriving DecidableEq

/-- The `customerNetworkGraph` state: the `instances` registry, the DOM
containers that resolve, the next fresh external handle and the released
handles. -/
structure St where
  instances : List (String × Inst) := []
  containers : List String := []
  nextHandle : Nat := 0
  released : List Nat := []
deriving DecidableEq

/-- js `customerNetworkGraph.initialize(containerId, options)` (renamed —
the js name is reserved here): resolves the container, creates a fresh
vis.Network over empty DataSets and stores it at `containerId`.  The store
overwrites any existing entry without destroying it: no release of the
previous external handle happens on this path. -/
def initGraph (cid : String) (s : St) : Bool × St :=
  if cid ∈ s.containers then
    (true, { s with
      instances := insertA cid { handle := s.nextHandle, nodes := [], edges := [] } s.instances,
      nextHandle := s.nextHandle + 1 })
  else (false, s)

/-- js `highlightPath(containerId, nodeIds)`: computes the edges whose two
endpoints are both listed, then updates every node's opacity to 1.0 when
listed (0.3 otherwise) and every edge's opacity to 1.0 when on the
highlighted set (0.3 otherwise). -/
def highlightPath (cid : String) (nodeIds : List String) (s : St) : Bool × St :=
  match lookupA cid s.instances with
  | none => (false, s)
  | some inst =>
      let highlightEdges := inst.edges.filter (fun e => decide (e.fromId ∈ nodeIds ∧ e.toId ∈ nodeIds))
      let ns := inst.nodes.map (fun n =>
        { n with opacity := some (if n.id ∈ nodeIds then 10 else 3) })
      let es := inst.edges.map (fun e =>
        let isHighlighted := highlightEdges.any (fun e2 => e2.id == e.id)
        { e with opacity := some (if isHighlighted then 10 else 3) })
      (true, { s with instances := insertA cid { inst with nodes := ns, edges := es } s.instances })

/-- js `resetHighlight(containerId)`: every node and edge back to opacity
1.0. -/
def resetHighlight (cid : String) (s : St) : Bool × St :=
  match lookupA cid s.instances with
  | none => (false, s)
  | some inst =>
      let ns := inst.nodes.map (fun n => { n with opacity := some 10 })
      let es := inst.edges.map (fun e => { e with opacity := some 10 })
      (true, { s with instances := insertA cid { inst with nodes := ns, edges := es } s.instances })

/-- js `destroy(containerId)`: destroys the network and deletes the entry
when the instance exists, and returns `true` in every case (the catch branch
that returns `false` is unreachable on these paths). -/
def destroy (cid : String) (s : St) : Bool × St :=
  match lookupA cid s.instances with
  | some inst =>
      (true, { s with instances := eraseA cid s.instances, released := inst.handle :: s.released })
  | none => (true, s)

end CustomerNetwork

/-! ## The relationship graph script (src/unnamed/part_001)

The registry stores the bare vis.Network object; its DataSets live inside
the external handle, so an instance here is the handle plus the selection
state that `getSelectedNodes` reads back. -/

namespace RelationshipGraph

/-- One entry of `networkInstances`: the external vis.Network handle and its
current selection. -/
structure Inst where
  handle : Nat
  selected : List String := []
deriving DecidableEq

/-- The script state: registry, resolvable containers, fresh-handle counter
and released handles. -/
structure St where
  networkInstances : List (String × Inst) := []
  containers : List String := []
  nextHandle : Nat := 0
  released : List Nat := []
deriving DecidableEq

/-- js `window.renderRelationshipGraph(containerId, nodes, edges, options)`:
returns `undefined` (here `none`) when the container does not resolve;
otherwise destroys any existing network instance at `containerId` first,
then creates and stores the new network and returns `true`.  The node/edge
arrays are wrapped in vis.DataSets owned by the new network (part of the
external handle), so they are not tracked in the registry model. -/
def renderRelationshipGraph (cid : String) (s : St) : Option Bool × St :=
  if cid ∈ s.containers then
    let s1 : St :=
      match lookupA cid s.networkInstances with
      | some old => { s with released := old.handle :: s.released }
      | none => s
    let s2 : St := { s1 with
      networkInstances := insertA cid { handle := s1.nextHandle, selected := [] } s1.networkInstances,
      nextHandle := s1.nextHandle + 1 }
    (some true, s2)
  else (none, s)

/-- js `window.getSelectedNodes(containerId)`: the empty array when the
instance is unknown (and on any caught error), else
`network.getSelectedNodes()`. -/
def getSelectedNodes (cid : String) (s : St) : List String :=
  match lookupA cid s.networkInstances with
  | none => []
  | some inst => inst.selected

/-- js `window.destroyGraph(containerId)`: destroys and deletes the entry
when present; returns `undefined` in every case. -/
def destroyGraph (cid : String) (s : St) : St :=
  match lookupA cid s.networkInstances with
  | some inst =>
      { s with networkInstances := eraseA cid s.networkInstances, released := inst.handle :: s.released }
  | none => s

end RelationshipGraph

/-! ## Registry map lemmas -/

theorem lookupA_insertA_self {α : Type} (k : String) (v : α) (m : List (String × α)) :
    lookupA k (insertA k v m) = some v := by
  induction m with
  | nil => simp [insertA, lookupA]
  | cons kv rest ih =>
      obtain ⟨k', v'⟩ := kv
      by_cases h : k = k'
      · simp [insertA, lookupA, h]
      · simp [insertA, lookupA, h, ih]

theorem lookupA_insertA_ne {α : Type} {k k' : String} (h : k ≠ k') (v : α) (m : List (String × α)) :
    lookupA k (insertA k' v m) = lookupA k m := by
  induction m with
  | nil => simp [insertA, lookupA, h]
  | cons kv rest ih =>
      obtain ⟨k1, v1⟩ := kv
      by_cases h1 : k' = k1
      · subst h1
        simp [insertA, lookupA, h]
      · by_cases h2 : k = k1
        · simp [insertA, lookupA, h1, h2]
        · simp [insertA, lookupA, h1, h2, ih]

theorem lookupA_eraseA_self {α : Type} (k : String) (m : List (String × α)) :
    lookupA k (eraseA k m) = none := by
  induction m with
  | nil => simp [eraseA, lookupA]
  | cons kv rest ih =>
      obtain ⟨k', v'⟩ := kv
      by_cases h : k = k'
      · subst h
        simp [eraseA, ih]
      · simp [eraseA, lookupA, h, ih]

theorem lookupA_eq_none_of_not_mem_keys {α : Type} {k : String} {m : List (String × α)}
    (h : k ∉ m.map Prod.fst) : lookupA k m = none := by
  induction m with
  | nil => rfl
  | cons kv rest ih =>
      obtain ⟨k', v'⟩ := kv
      simp only [List.map_cons, List.mem_cons] at h
      push_neg at h
      simp [lookupA, h.1, ih h.2]

theorem mem_keys_insertA {α : Type} {x k : String} {v : α} {m : List (String × α)}
    (h : x ∈ (insertA k v m).map Prod.fst) : x = k ∨ x ∈ m.map Prod.fst := by
  induction m with
  | nil => simpa [insertA] using h
  | cons kv rest ih =>
      obtain ⟨k', v'⟩ := kv
      by_cases h1 : k = k'
      · simp only [insertA, if_pos h1, List.map_cons, List.mem_cons] at h
        rcases h with h | h
        · exact Or.inl h
        · exact Or.inr (by simp [h])
      · simp only [insertA, if_neg h1, List.map_cons, List.mem_cons] at h
        rcases h with h | h
        · exact Or.inr (by simp [h])
        · rcases ih h with h' | h'
          · exact Or.inl h'
          · exact Or.inr (by simp [h'])

theorem lookupA_insertA_same {α : Type} (k : String) (v : α) (m : List (String × α)) :
    ∀ k', lookupA k' (insertA k v m) = if k' = k then some v else lookupA k' m := by
  intro k'
  by_cases h : k' = k
  · subst h
    simp [lookupA_insertA_self]
  · simp [h, lookupA_insertA_ne h]

theorem insertA_keys_nodup {α : Type} (k : String) (v : α) {m : List (String × α)}
    (h : (m.map Prod.fst).Nodup) : ((insertA k v m).map Prod.fst).Nodup := by
  induction m with
  | nil => simp [insertA]
  | cons kv rest ih =>
      obtain ⟨k', v'⟩ := kv
      simp only [List.map_cons, List.nodup_cons] at h
      by_cases h1 : k = k'
      · subst h1
        simpa [insertA, List.nodup_cons] using h
      · simp only [insertA, if_neg h1, List.map_cons, List.nodup_cons]
        refine ⟨fun hx => ?_, ih h.2⟩
        rcases mem_keys_insertA hx with h' | h'
        · exact h1 (h'.symm)
        · exact h.1 h'

/-! ## Claim C2 — removeNode cascade -/

/-- C2 counterexample: the claim fails on `journeyBuilderGraph.removeNode`,
which runs `nodes.remove(nodeId)` only.  On an instance holding one node
"n1" and one edge leaving "n1", removing "n1" returns true but the edge
referencing "n1" is still stored, so "no edge/link stored in the instance
has n as its source or its target" is false. -/
theorem jb_remove_node_leaves_dangling_edge :
    JourneyBuilder.removeNode "jb" "n1"
        { networks := [("jb",
            { handle := 0,
              nodes := [{ id := "n1", type := some "Start" }],
              edges := [{ id := "e1", fromId := "n1", toId := "n2" }] })] }
      = (true,
        { networks := [("jb",
            { handle := 0,
              nodes := [],
              edges := [{ id := "e1", fromId := "n1", toId := "n2" }] })] }) := by
  rfl

/-- C2 (amended): in the d3-network-graph variant, `removeNode(id, n)`
does cascade: it returns true and afterwards the instance at `id` contains
no node with id `n` and no link whose source or target is `n`.  The
vis.DataSet-backed variants (journey builder, part_000) remove only the
node and leave edges referencing `n` in place. -/
theorem d3_remove_node_cascades (s : D3Graph.St) (cid nid : String) (inst : D3Graph.Inst)
    (h : lookupA cid s.graphInstances = some inst) :
    (D3Graph.removeNode cid nid s).fst = true ∧
    ∃ inst', lookupA cid (D3Graph.removeNode cid nid s).snd.graphInstances = some inst' ∧
      (∀ n ∈ inst'.nodes, n.id ≠ nid) ∧
      (∀ l ∈ inst'.links, l.sourceId ≠ nid ∧ l.targetId ≠ nid) := by
  refine ⟨by simp [D3Graph.removeNode, h], ?_⟩
  refine ⟨{ inst with
      nodes := inst.nodes.filter (fun n => decide (n.id ≠ nid)),
      links := inst.links.filter (fun l => decide (l.sourceId ≠ nid ∧ l.targetId ≠ nid)) },
    ?_, ?_, ?_⟩
  · simp [D3Graph.removeNode, h, lookupA_insertA_self]
  · intro n hn
    exact of_decide_eq_true (List.mem_filter.mp hn).2
  · intro l hl
    exact of_decide_eq_true (List.mem_filter.mp hl).2

/-- Witness for C2's theorem at a concrete two-node, one-link instance. -/
theorem d3_remove_node_cascades_witness :
    (D3Graph.removeNode "g" "n1"
        { graphInstances := [("g",
            { handle := 0,
              nodes := [{ id := "n1" }, { id := "n2" }],
              links := [{ sourceId := "n1", targetId := "n2" }] })] }).fst = true :=
  (d3_remove_node_cascades _ "g" "n1"
    { handle := 0,
      nodes := [{ id := "n1" }, { id := "n2" }],
      links := [{ sourceId := "n1", targetId := "n2" }] }
    (by rfl)).1

/-! ## Claim C3 — idempotent destroy -/

/-- C3 counterexample: `journeyBuilderGraph.destroy` returns `true`
unconditionally, so a call on an id with no instance returns true, not the
false the claim requires. -/
theorem jb_destroy_unknown_returns_true :
    JourneyBuilder.destroy "missing" { networks := [] } = (true, { networks := [] }) := by
  rfl

/-- C3 (amended): destroy is idempotent and never errors in every variant;
in the d3 variant it releases the handle, removes the entry and returns
true on a live instance, and a second call (or any call on a missing id)
is a no-op returning false exactly as the claim states; the journey-builder
(and theme) variants return true instead of false on a missing id, while
still being registry-preserving no-ops. -/
theorem d3_destroy_idempotent (s : D3Graph.St) (cid : String) (inst : D3Graph.Inst)
    (h : lookupA cid s.graphInstances = some inst) :
    (D3Graph.destroy cid s).fst = true ∧
    inst.handle ∈ (D3Graph.destroy cid s).snd.released ∧
    lookupA cid (D3Graph.destroy cid s).snd.graphInstances = none ∧
    D3Graph.destroy cid (D3Graph.destroy cid s).snd = (false, (D3Graph.destroy cid s).snd) ∧
    (∀ s' : D3Graph.St, lookupA cid s'.graphInstances = none → D3Graph.destroy cid s' = (false, s')) ∧
    (∀ js : JourneyBuilder.St, lookupA cid js.networks = none →
      JourneyBuilder.destroy cid js = (true, js)) := by
  have herase : lookupA cid (eraseA cid s.graphInstances) = none := lookupA_eraseA_self cid _
  refine ⟨by simp [D3Graph.destroy, h], by simp [D3Graph.destroy, h],
    by simp [D3Graph.destroy, h, herase], by simp [D3Graph.destroy, h, herase], ?_, ?_⟩
  · intro s' hs
    simp [D3Graph.destroy, hs]
  · intro js hjs
    simp [JourneyBuilder.destroy, hjs]

/-- Witness for C3's theorem: destroying a live instance returns true and
releases its handle. -/
theorem d3_destroy_idempotent_witness :
    (D3Graph.destroy "g" { graphInstances := [("g", { handle := 7 })] }).fst = true ∧
    (7 : Nat) ∈ (D3Graph.destroy "g" { graphInstances := [("g", { handle := 7 })] }).snd.released :=
  ⟨(d3_destroy_idempotent _ "g" { handle := 7 } (by rfl)).1,
   (d3_destroy_idempotent _ "g" { handle := 7 } (by rfl)).2.1⟩

/-! ## Claim C1 — create/re-create destroys the previous instance -/

/-- C1 counterexample: `customerNetworkGraph.initialize` (theme.js) does not
destroy a live instance found at the id.  Starting from a registry holding a
live instance with handle 0 at "a", re-initializing "a" stores a replacement
(handle 1) while `released` stays empty: the previous external handle was
not released, contradicting "first destroys that previous instance". -/
theorem cn_init_overwrites_without_release :
    CustomerNetwork.initGraph "a"
        { instances := [("a", { handle := 0 })], containers := ["a"],
          nextHandle := 1, released := [] }
      = (true,
        { instances := [("a", { handle := 1 })], containers := ["a"],
          nextHandle := 2, released := [] }) := by
  rfl

/-- C1 (amended): only the relationship-graph variant implements
destroy-before-replace: when `renderRelationshipGraph` is called on a
container that resolves and an id with a live instance, the previous
instance's external handle is released, the replacement (a fresh handle) is
stored at the id, and key uniqueness of the registry is preserved, so at
most one live instance exists per id there.  `customerNetworkGraph.initialize`
(theme.js) instead overwrites the entry without releasing the previous
handle. -/
theorem render_relationship_graph_destroys_previous (s : RelationshipGraph.St) (cid : String)
    (old : RelationshipGraph.Inst)
    (hc : cid ∈ s.containers) (h : lookupA cid s.networkInstances = some old) :
    (RelationshipGraph.renderRelationshipGraph cid s).fst = some true ∧
    old.handle ∈ (RelationshipGraph.renderRelationshipGraph cid s).snd.released ∧
    lookupA cid (RelationshipGraph.renderRelationshipGraph cid s).snd.networkInstances
      = some { handle := s.nextHandle, selected := [] } ∧
    ((s.networkInstances.map Prod.fst).Nodup →
      ((RelationshipGraph.renderRelationshipGraph cid s).snd.networkInstances.map Prod.fst).Nodup) := by
  refine ⟨?_, ?_, ?_, ?_⟩
  · simp [RelationshipGraph.renderRelationshipGraph, hc, h]
  · simp [RelationshipGraph.renderRelationshipGraph, hc, h]
  · simp [RelationshipGraph.renderRelationshipGraph, hc, h, lookupA_insertA_self]
  · intro hnd
    simpa [RelationshipGraph.renderRelationshipGraph, hc, h] using
      insertA_keys_nodup cid { handle := s.nextHandle, selected := [] } hnd

/-- Witness for C1's theorem: re-rendering over a live instance releases
handle 0 and stores the fresh handle 1. -/
theorem render_relationship_graph_destroys_previous_witness :
    (0 : Nat) ∈ (RelationshipGraph.renderRelationshipGraph "a"
        { networkInstances := [("a", { handle := 0 })], containers := ["a"],
          nextHandle := 1, released := [] }).snd.released :=
  (render_relationship_graph_destroys_previous _ "a" { handle := 0 }
    (by simp) (by rfl)).2.1

/-! ## Claim C4 — operations on an unknown id -/

/-- C4 counterexample: `customerNetworkGraph.destroy` (theme.js) on an id
with no registered instance returns `true` — a success indicator, not the
false/null failure indicator the claim requires of every registry
operation. -/
theorem cn_destroy_unknown_returns_true :
    CustomerNetwork.destroy "missing" { instances := [] }
      = (true, { instances := [] }) := by
  rfl

/-- C4 (amended): on an id with no registered instance, the journey-builder
data operations return false (or null for the reads) and leave the state
unchanged — in particular no instance is created — exactly as claimed;
`destroy`, however, returns true (theme.js behaves the same way), not a
failure indicator, while still preserving the registry. -/
theorem jb_unknown_id_noop (s : JourneyBuilder.St) (cid : String)
    (h : lookupA cid s.networks = none) :
    (∀ nd : JourneyBuilder.JNode, JourneyBuilder.addNode cid nd s = some (false, s)) ∧
    (∀ e : JourneyBuilder.JEdge, JourneyBuilder.addEdge cid e s = some (false, s)) ∧
    (∀ (nid : String) (u : JourneyBuilder.JNode), JourneyBuilder.updateNode cid nid u s = (false, s)) ∧
    (∀ nid : String, JourneyBuilder.removeNode cid nid s = (false, s)) ∧
    (∀ eid : String, JourneyBuilder.removeEdge cid eid s = (false, s)) ∧
    (∀ (N : List JourneyBuilder.JNode) (E : List JourneyBuilder.JEdge),
      JourneyBuilder.loadData cid N E s = some (false, s)) ∧
    JourneyBuilder.getData cid s = none ∧
    (∀ nid : String, JourneyBuilder.focusNode cid nid s = (false, s)) ∧
    (∀ S : List String, JourneyBuilder.highlightPath cid S s = (false, s)) ∧
    JourneyBuilder.resetHighlight cid s = (false, s) ∧
    JourneyBuilder.clear cid s = (false, s) ∧
    (∀ b : Bool, JourneyBuilder.setPhysics cid b s = (false, s)) ∧
    JourneyBuilder.exportToPNG cid s = none ∧
    JourneyBuilder.validate cid s = { valid := false, errors := ["Network not found"], warnings := [] } ∧
    JourneyBuilder.destroy cid s = (true, s) := by
  refine ⟨?_, ?_, ?_, ?_, ?_, ?_, ?_, ?_, ?_, ?_, ?_, ?_, ?_, ?_, ?_⟩ <;>
    intros <;>
    simp [JourneyBuilder.addNode, JourneyBuilder.addEdge, JourneyBuilder.updateNode,
      JourneyBuilder.removeNode, JourneyBuilder.removeEdge, JourneyBuilder.loadData,
      JourneyBuilder.getData, JourneyBuilder.focusNode, JourneyBuilder.highlightPath,
      JourneyBuilder.resetHighlight, JourneyBuilder.clear, JourneyBuilder.setPhysics,
      JourneyBuilder.exportToPNG, JourneyBuilder.validate, JourneyBuilder.destroy, h]

/-- Witness for C4's theorem: `addNode("missing-id", ...)` on an empty
registry returns false and creates no instance. -/
theorem jb_unknown_id_noop_witness :
    JourneyBuilder.addNode "missing-id" { id := "n1", type := some "Start" } { networks := [] }
      = some (false, { networks := [] }) :=
  (jb_unknown_id_noop { networks := [] } "missing-id" (by rfl)).1
    { id := "n1", type := some "Start" }

/-! ## Claim C9 — focusNode on an unknown node -/

/-- C9 counterexample: `journeyBuilderGraph.focusNode` never checks that the
node exists — on a live instance with no nodes at all it still returns true
and forwards `selectNodes([nodeId])`, so the selection now holds the unknown
id; the claim requires a no-op returning false. -/
theorem jb_focus_node_unknown_returns_true :
    JourneyBuilder.focusNode "jb" "ghost"
        { networks := [("jb", { handle := 0 })] }
      = (true, { networks := [("jb", { handle := 0, selected := ["ghost"] })] }) := by
  rfl

/-- C9 (amended): the d3 variant behaves as claimed — `focusNode` on a live
instance whose node set lacks `nodeId` returns false and leaves the state
unchanged; the journey-builder variant instead forwards the focus/select to
the external library without any node check and returns true. -/
theorem focus_node_unknown (sd : D3Graph.St) (cidD nidD : String) (instD : D3Graph.Inst)
    (hD : lookupA cidD sd.graphInstances = some instD)
    (hAbsent : ∀ n ∈ instD.nodes, n.id ≠ nidD)
    (sj : JourneyBuilder.St) (cidJ nidJ : String) (netJ : JourneyBuilder.Net)
    (hJ : lookupA cidJ sj.networks = some netJ) :
    D3Graph.focusNode cidD nidD sd = (false, sd) ∧
    (JourneyBuilder.focusNode cidJ nidJ sj).fst = true := by
  constructor
  · have hfind : instD.nodes.find? (fun n => n.id == nidD) = none := by
      apply List.find?_eq_none.mpr
      intro n hn
      simpa using hAbsent n hn
    simp [D3Graph.focusNode, hD, hfind]
  · simp [JourneyBuilder.focusNode, hJ]

/-- Witness for C9's theorem at a one-node d3 instance and a live journey
instance. -/
theorem focus_node_unknown_witness :
    D3Graph.focusNode "g" "nope"
        { graphInstances := [("g", { handle := 0, nodes := [{ id := "n1" }] })] }
      = (false, { graphInstances := [("g", { handle := 0, nodes := [{ id := "n1" }] })] }) :=
  (focus_node_unknown _ "g" "nope" { handle := 0, nodes := [{ id := "n1" }] }
    (by rfl) (by decide)
    { networks := [("jb", { handle := 0 })] } "jb" "x" { handle := 0 } (by rfl)).1

/-! ## Claim C10 — getSelectedNodes on an unknown container -/

/-- C10: `getSelectedNodes(containerId)` returns the empty array whenever
the registry lookup fails — by its type it always yields an array of node
ids, never false, null or an error. -/
theorem get_selected_nodes_unknown_empty (s : RelationshipGraph.St) (cid : String)
    (h : lookupA cid s.networkInstances = none) :
    RelationshipGraph.getSelectedNodes cid s = [] := by
  simp [RelationshipGraph.getSelectedNodes, h]

/-- Witness for C10's theorem on a registry that holds an unrelated
instance. -/
theorem get_selected_nodes_unknown_empty_witness :
    RelationshipGraph.getSelectedNodes "missing"
        { networkInstances := [("a", { handle := 0, selected := ["n1"] })] } = [] :=
  get_selected_nodes_unknown_empty _ "missing" (by rfl)

/-! ## Claim C5 — updateNode merge semantics -/

theorem lookupA_assignAttrs {u : List (String × String)} (hu : (u.map Prod.fst).Nodup)
    (a : List (String × String)) (k : String) :
    lookupA k (D3Graph.assignAttrs a u) =
      match lookupA k u with
      | some v => some v
      | none => lookupA k a := by
  induction u generalizing a with
  | nil => simp [D3Graph.assignAttrs, lookupA]
  | cons kv rest ih =>
      obtain ⟨k1, v1⟩ := kv
      simp only [List.map_cons, List.nodup_cons] at hu
      have step : D3Graph.assignAttrs a ((k1, v1) :: rest)
          = D3Graph.assignAttrs (insertA k1 v1 a) rest := rfl
      rw [step, ih hu.2]
      by_cases hk : k = k1
      · subst hk
        have hnone : lookupA k rest = none := lookupA_eq_none_of_not_mem_keys hu.1
        simp [lookupA, hnone, lookupA_insertA_self]
      · cases hr : lookupA k rest with
        | some v => simp [lookupA, hk, hr]
        | none => simp [lookupA, hk, hr, lookupA_insertA_ne hk]

theorem updateFirst_map_id (nid : String) (u : List (String × String)) (ns : List D3Graph.D3Node) :
    (D3Graph.updateFirst nid u ns).map D3Graph.D3Node.id = ns.map D3Graph.D3Node.id := by
  induction ns with
  | nil => rfl
  | cons n rest ih =>
      by_cases h : n.id = nid
      · simp [D3Graph.updateFirst, h]
      · simp [D3Graph.updateFirst, h, ih]

theorem find?_updateFirst {nid : String} (u : List (String × String)) {ns : List D3Graph.D3Node}
    {n0 : D3Graph.D3Node} (h : ns.find? (fun n => n.id == nid) = some n0) :
    (D3Graph.updateFirst nid u ns).find? (fun n => n.id == nid)
      = some { n0 with attrs := D3Graph.assignAttrs n0.attrs u } := by
  induction ns with
  | nil => simp at h
  | cons n rest ih =>
      by_cases hid : n.id = nid
      · rw [List.find?_cons_of_pos _ (by simpa using hid)] at h
        injection h with h'
        subst h'
        simp only [D3Graph.updateFirst, if_pos hid]
        rw [List.find?_cons_of_pos _ (by simpa using hid)]
      · rw [List.find?_cons_of_neg _ (by simpa using hid)] at h
        simp only [D3Graph.updateFirst, if_neg hid]
        rw [List.find?_cons_of_neg _ (by simpa using hid)]
        exact ih h

theorem dsUpdateNode_absent {upd : JourneyBuilder.JNode} {ns : List JourneyBuilder.JNode}
    (h : ∀ n ∈ ns, n.id ≠ upd.id) :
    JourneyBuilder.dsUpdateNode upd ns = ns ++ [upd] := by
  have hfind : ns.find? (fun n => n.id == upd.id) = none :=
    List.find?_eq_none.mpr (fun n hn => by simpa using h n hn)
  simp [JourneyBuilder.dsUpdateNode, hfind]

/-- C5 counterexample: the d3 `updateNode` on a live instance whose node set
lacks the node returns true (its unconditional `return true` after the
`if (node)` guard), not the false the claim requires — it does leave the
node set unchanged. -/
theorem d3_update_node_absent_returns_true :
    D3Graph.updateNode "g" "ghost" [("label", "x")]
        { graphInstances := [("g", { handle := 0, nodes := [{ id := "n1" }] })] }
      = (true, { graphInstances := [("g", { handle := 0, nodes := [{ id := "n1" }] })] }) := by
  rfl

/-- C5 (amended): when `nodeId` is present, the d3 `updateNode` merges the
partial record onto the existing node (keys of `u` overwrite, other fields
survive) and returns true, as claimed; when `nodeId` is absent the d3
variant returns true without creating or changing anything (not false), and
the journey-builder variant auto-creates: `DataSet.update` appends the
styled node and returns true. -/
theorem update_node_merge_or_upsert
    (sd : D3Graph.St) (cid nid : String) (u : List (String × String)) (inst : D3Graph.Inst)
    (hD : lookupA cid sd.graphInstances = some inst)
    (n0 : D3Graph.D3Node) (hfound : inst.nodes.find? (fun n => n.id == nid) = some n0)
    (hu : (u.map Prod.fst).Nodup)
    (sd2 : D3Graph.St) (cid2 nid2 : String) (inst2 : D3Graph.Inst)
    (hD2 : lookupA cid2 sd2.graphInstances = some inst2)
    (habsent2 : ∀ n ∈ inst2.nodes, n.id ≠ nid2)
    (sj : JourneyBuilder.St) (cidJ nidJ : String) (uJ : JourneyBuilder.JNode)
    (netJ : JourneyBuilder.Net)
    (hJ : lookupA cidJ sj.networks = some netJ)
    (habsJ : ∀ n ∈ netJ.nodes, n.id ≠ nidJ) :
    ((D3Graph.updateNode cid nid u sd).fst = true ∧
      ∃ inst', lookupA cid (D3Graph.updateNode cid nid u sd).snd.graphInstances = some inst' ∧
        inst'.nodes.map D3Graph.D3Node.id = inst.nodes.map D3Graph.D3Node.id ∧
        inst'.nodes.find? (fun n => n.id == nid)
          = some { n0 with attrs := D3Graph.assignAttrs n0.attrs u } ∧
        (∀ k : String,
          lookupA k (D3Graph.assignAttrs n0.attrs u)
            = match lookupA k u with
              | some v => some v
              | none => lookupA k n0.attrs)) ∧
    D3Graph.updateNode cid2 nid2 u sd2 = (true, sd2) ∧
    ((JourneyBuilder.updateNode cidJ nidJ uJ sj).fst = true ∧
      ∃ net', lookupA cidJ (JourneyBuilder.updateNode cidJ nidJ uJ sj).snd.networks = some net' ∧
        net'.nodes = netJ.nodes ++ [JourneyBuilder.styleNode { uJ with id := nidJ }]) := by
  have hsome : (inst.nodes.find? (fun n => n.id == nid)).isSome := by
    simp [hfound]
  have hnone2 : inst2.nodes.find? (fun n => n.id == nid2) = none :=
    List.find?_eq_none.mpr (fun n hn => by simpa using habsent2 n hn)
  refine ⟨⟨?_, ?_⟩, ?_, ?_, ?_⟩
  · simp [D3Graph.updateNode, hD, hsome]
  · refine ⟨{ inst with nodes := D3Graph.updateFirst nid u inst.nodes }, ?_, ?_, ?_, ?_⟩
    · simp [D3Graph.updateNode, hD, hsome, lookupA_insertA_self]
    · exact updateFirst_map_id nid u inst.nodes
    · exact find?_updateFirst u hfound
    · intro k
      exact lookupA_assignAttrs hu n0.attrs k
  · simp [D3Graph.updateNode, hD2, hnone2]
  · simp [JourneyBuilder.updateNode, hJ]
  · refine ⟨{ netJ with
        nodes := JourneyBuilder.dsUpdateNode
          (JourneyBuilder.styleNode { uJ with id := nidJ }) netJ.nodes }, ?_, ?_⟩
    · simp [JourneyBuilder.updateNode, hJ, lookupA_insertA_self]
    · exact dsUpdateNode_absent (fun n hn => habsJ n hn)

/-- Witness for C5's theorem: a present node gets its label overwritten and
the call returns true; the absent-node cases return true as well. -/
theorem update_node_merge_or_upsert_witness :
    (D3Graph.updateNode "g" "n1" [("label", "new")]
        { graphInstances := [("g",
            { handle := 0, nodes := [{ id := "n1", attrs := [("label", "old"), ("color", "blue")] }] })] }).fst
      = true :=
  (update_node_merge_or_upsert
    _ "g" "n1" [("label", "new")]
    { handle := 0, nodes := [{ id := "n1", attrs := [("label", "old"), ("color", "blue")] }] }
    (by rfl)
    { id := "n1", attrs := [("label", "old"), ("color", "blue")] } (by rfl) (by decide)
    { graphInstances := [("g2", { handle := 1, nodes := [] })] } "g2" "ghost"
    { handle := 1, nodes := [] } (by rfl) (by decide)
    { networks := [("jb", { handle := 2 })] } "jb" "newnode" { id := "x", type := some "Wait" }
    { handle := 2 } (by rfl) (by decide)).1.1

/-! ## Claim C6 — highlight semantics -/

theorem cn_nodes_opacity_filter (S : List String) (ns : List CustomerNetwork.TNode) :
    ((ns.map (fun n => { n with opacity := some (if n.id ∈ S then 10 else 3) })).filter
        (fun n => n.opacity == some 10)).map CustomerNetwork.TNode.id
      = (ns.map CustomerNetwork.TNode.id).filter (fun i => decide (i ∈ S)) := by
  induction ns with
  | nil => rfl
  | cons n rest ih =>
      by_cases hm : n.id ∈ S
      · simp [hm, ih]
      · simp [hm, ih]

theorem cn_highlight_edge_iff (S : List String) (es : List CustomerNetwork.TEdge)
    (hids : (es.map CustomerNetwork.TEdge.id).Nodup) {e : CustomerNetwork.TEdge} (he : e ∈ es) :
    ((es.filter (fun e2 => decide (e2.fromId ∈ S ∧ e2.toId ∈ S))).any (fun e2 => e2.id == e.id) = true)
      ↔ (e.fromId ∈ S ∧ e.toId ∈ S) := by
  constructor
  · intro hany
    obtain ⟨e2, he2, heq⟩ := List.any_eq_true.mp hany
    obtain ⟨he2mem, hcond⟩ := List.mem_filter.mp he2
    have heq' : e2.id = e.id := by simpa using heq
    have he2e : e2 = e := List.inj_on_of_nodup_map hids he2mem he heq'
    subst he2e
    exact of_decide_eq_true hcond
  · intro hboth
    exact List.any_eq_true.mpr ⟨e, List.mem_filter.mpr ⟨he, decide_eq_true hboth⟩, by simp⟩

/-- C6 counterexample: `journeyBuilderGraph.highlightPath` emphasizes only
edges joining consecutive entries of the list.  With S = ["a", "b"] and one
edge from "b" to "a" — both endpoints in S — the call returns true but the
edge keeps the reset style (width 2, gray), while the listed nodes get wide
borders: the claim's "emphasizes an edge iff both of its endpoints are in S"
fails, and nothing outside the set gets its opacity reduced. -/
theorem jb_highlight_path_skips_nonconsecutive_edge :
    JourneyBuilder.highlightPath "jb" ["a", "b"]
        { networks := [("jb",
            { handle := 0,
              nodes := [{ id := "a" }, { id := "b" }],
              edges := [{ id := "e1", fromId := "b", toId := "a" }] })] }
      = (true,
        { networks := [("jb",
            { handle := 0,
              nodes := [{ id := "a", borderWidth := some 5, borderWidthSelected := some 6 },
                        { id := "b", borderWidth := some 5, borderWidthSelected := some 6 }],
              edges := [{ id := "e1", fromId := "b", toId := "a",
                          width := some 2, colorColor := some "#848484",
                          colorHighlight := some "#2B7CE9" }] })] }) := by
  rfl

/-- C6 (amended): the theme.js `customerNetworkGraph.highlightPath` does
behave as the claim states, with opacity as the highlight state: it returns
true, removes nothing (node and edge id sequences are unchanged), sets node
opacity to 1.0 exactly on S ∩ keys and 0.3 elsewhere (not additively), and
sets an edge's opacity to 1.0 iff both endpoints are in S, 0.3 otherwise.
The journey-builder variant does not: it uses border widths, highlights only
consecutive-pair edges and dims nothing. -/
theorem cn_highlight_path_exact (s : CustomerNetwork.St) (cid : String) (S : List String)
    (inst : CustomerNetwork.Inst) (h : lookupA cid s.instances = some inst)
    (hids : (inst.edges.map CustomerNetwork.TEdge.id).Nodup) :
    (CustomerNetwork.highlightPath cid S s).fst = true ∧
    ∃ inst', lookupA cid (CustomerNetwork.highlightPath cid S s).snd.instances = some inst' ∧
      inst'.nodes.map CustomerNetwork.TNode.id = inst.nodes.map CustomerNetwork.TNode.id ∧
      inst'.edges.map CustomerNetwork.TEdge.id = inst.edges.map CustomerNetwork.TEdge.id ∧
      (∀ n ∈ inst'.nodes, n.opacity = some 10 ∨ n.opacity = some 3) ∧
      (∀ n ∈ inst'.nodes, (n.opacity = some 10 ↔ n.id ∈ S)) ∧
      ((inst'.nodes.filter (fun n => n.opacity == some 10)).map CustomerNetwork.TNode.id
        = (inst.nodes.map CustomerNetwork.TNode.id).filter (fun i => decide (i ∈ S))) ∧
      (∀ e ∈ inst'.edges, e.opacity = some 10 ∨ e.opacity = some 3) ∧
      (∀ e ∈ inst'.edges, (e.opacity = some 10 ↔ (e.fromId ∈ S ∧ e.toId ∈ S))) := by
  refine ⟨by simp [CustomerNetwork.highlightPath, h], ?_⟩
  refine ⟨{ inst with
      nodes := inst.nodes.map (fun n => { n with opacity := some (if n.id ∈ S then 10 else 3) }),
      edges := inst.edges.map (fun e =>
        { e with opacity := some (if
            (inst.edges.filter (fun e2 => decide (e2.fromId ∈ S ∧ e2.toId ∈ S))).any
              (fun e2 => e2.id == e.id) then 10 else 3) }) },
    ?_, ?_, ?_, ?_, ?_, ?_, ?_, ?_⟩
  · simp [CustomerNetwork.highlightPath, h, lookupA_insertA_self]
  · rw [List.map_map]
    rfl
  · rw [List.map_map]
    rfl
  · intro n hn
    obtain ⟨n0, _, rfl⟩ := List.mem_map.mp hn
    by_cases hm : n0.id ∈ S
    · exact Or.inl (by simp [hm])
    · exact Or.inr (by simp [hm])
  · intro n hn
    obtain ⟨n0, _, rfl⟩ := List.mem_map.mp hn
    by_cases hm : n0.id ∈ S
    · simp [hm]
    · simp [hm]
  · exact cn_nodes_opacity_filter S inst.nodes
  · intro e he
    obtain ⟨e0, _, rfl⟩ := List.mem_map.mp he
    by_cases hb : (inst.edges.filter (fun e2 => decide (e2.fromId ∈ S ∧ e2.toId ∈ S))).any
        (fun e2 => e2.id == e0.id) = true
    · exact Or.inl (by dsimp only; rw [if_pos hb])
    · exact Or.inr (by dsimp only; rw [if_neg hb])
  · intro e he
    obtain ⟨e0, he0, rfl⟩ := List.mem_map.mp he
    by_cases hb : (inst.edges.filter (fun e2 => decide (e2.fromId ∈ S ∧ e2.toId ∈ S))).any
        (fun e2 => e2.id == e0.id) = true
    · have hboth := (cn_highlight_edge_iff S inst.edges hids he0).mp hb
      dsimp only
      rw [if_pos hb]
      exact ⟨fun _ => hboth, fun _ => rfl⟩
    · have hnboth := fun hc => hb ((cn_highlight_edge_iff S inst.edges hids he0).mpr hc)
      dsimp only
      rw [if_neg hb]
      constructor
      · intro hop
        exact absurd hop (by decide)
      · intro hc
        exact absurd hc hnboth

/-- Witness for C6's theorem at a three-node, two-edge instance with
S = ["a", "b"]. -/
theorem cn_highlight_path_exact_witness :
    (CustomerNetwork.highlightPath "cn" ["a", "b"]
        { instances := [("cn",
            { handle := 0,
              nodes := [{ id := "a" }, { id := "b" }, { id := "c" }],
              edges := [{ id := "e1", fromId := "a", toId := "b" },
                        { id := "e2", fromId := "b", toId := "c" }] })] }).fst = true :=
  (cn_highlight_path_exact _ "cn" ["a", "b"]
    { handle := 0,
      nodes := [{ id := "a" }, { id := "b" }, { id := "c" }],
      edges := [{ id := "e1", fromId := "a", toId := "b" },
                { id := "e2", fromId := "b", toId := "c" }] }
    (by rfl) (by decide)).1

/-! ## Claim C7 — journey validation -/

theorem any_toId_iff (edges : List JourneyBuilder.JEdge) (nid : String) :
    (edges.any (fun e => e.toId == nid) = true) ↔ (∃ e ∈ edges, e.toId = nid) := by
  simp [List.any_eq_true]

theorem any_fromId_iff (edges : List JourneyBuilder.JEdge) (nid : String) :
    (edges.any (fun e => e.fromId == nid) = true) ↔ (∃ e ∈ edges, e.fromId = nid) := by
  simp [List.any_eq_true]

theorem nodeError_eq_none_iff (edges : List JourneyBuilder.JEdge) (n : JourneyBuilder.JNode) :
    JourneyBuilder.nodeError edges n = none ↔
      ((n.type ≠ some "Start" ∧ n.type ≠ some "End") →
        (edges.any (fun e => e.toId == n.id) = true ∧
         edges.any (fun e => e.fromId == n.id) = true)) := by
  simp only [JourneyBuilder.nodeError]
  by_cases h1 : n.type ≠ some "Start" ∧ n.type ≠ some "End"
  · rw [if_pos h1]
    cases hin : edges.any (fun e => e.toId == n.id) <;>
      cases hout : edges.any (fun e => e.fromId == n.id) <;>
        simp [h1]
  · rw [if_neg h1]
    exact iff_of_true rfl (fun hc => (h1 hc).elim)

/-- C7: the journey-builder `validate` is a read-only derived check;
`valid` is true iff exactly one Start-tagged node exists, at least one
End-tagged node exists, and every non-Start/non-End node has at least one
incoming and one outgoing edge; and an instance whose only node is a Start
node yields valid = false with exactly the must-have-an-End-node error. -/
theorem jb_validate_correct (s : JourneyBuilder.St) (cid : String) (net : JourneyBuilder.Net)
    (h : lookupA cid s.networks = some net) :
    ((JourneyBuilder.validate cid s).valid = true ↔
      ((net.nodes.filter (fun n => n.type == some "Start")).length = 1 ∧
       1 ≤ (net.nodes.filter (fun n => n.type == some "End")).length ∧
       (∀ n ∈ net.nodes, (n.type ≠ some "Start" ∧ n.type ≠ some "End") →
         ((∃ e ∈ net.edges, e.toId = n.id) ∧ (∃ e ∈ net.edges, e.fromId = n.id))))) ∧
    JourneyBuilder.validate "jb"
        { networks := [("jb",
            { handle := 0, nodes := [{ id := "1", type := some "Start", label := some "Entry" }] })] }
      = { valid := false, errors := ["Journey must have at least one End node"], warnings := [] } := by
  have key : ∀ a b c : List String,
      (((a ++ b ++ c).length == 0) = true) ↔ (a = [] ∧ b = [] ∧ c = []) := by
    intro a b c
    simp [Nat.add_eq_zero, List.length_eq_zero]
  have hstart : ∀ L : Nat,
      ((if L = 0 then ["Journey must have a Start node"]
        else if L > 1 then ["Journey can only have one Start node"]
        else []) = ([] : List String)) ↔ L = 1 := by
    intro L
    split_ifs with h0 hgt <;> simp <;> omega
  have hend : ∀ L : Nat,
      ((if L = 0 then ["Journey must have at least one End node"] else []) = ([] : List String))
        ↔ 1 ≤ L := by
    intro L
    split_ifs with h0 <;> simp <;> omega
  have hnodes : (net.nodes.filterMap (JourneyBuilder.nodeError net.edges) = []) ↔
      (∀ n ∈ net.nodes, (n.type ≠ some "Start" ∧ n.type ≠ some "End") →
        ((∃ e ∈ net.edges, e.toId = n.id) ∧ (∃ e ∈ net.edges, e.fromId = n.id))) := by
    rw [List.filterMap_eq_nil_iff]
    constructor
    · intro hall n hn hcond
      have hb := (nodeError_eq_none_iff net.edges n).mp (hall n hn) hcond
      exact ⟨(any_toId_iff net.edges n.id).mp hb.1, (any_fromId_iff net.edges n.id).mp hb.2⟩
    · intro hall n hn
      refine (nodeError_eq_none_iff net.edges n).mpr (fun hcond => ?_)
      exact ⟨(any_toId_iff net.edges n.id).mpr (hall n hn hcond).1,
             (any_fromId_iff net.edges n.id).mpr (hall n hn hcond).2⟩
  constructor
  · simp only [JourneyBuilder.validate, h]
    rw [key, hstart, hend, hnodes]
  · rfl

/-- Witness for C7's theorem: the single-Start-node scenario, via the
theorem itself. -/
theorem jb_validate_correct_witness :
    JourneyBuilder.validate "jb"
        { networks := [("jb",
            { handle := 0, nodes := [{ id := "1", type := some "Start", label := some "Entry" }] })] }
      = { valid := false, errors := ["Journey must have at least one End node"], warnings := [] } :=
  (jb_validate_correct
    { networks := [("jb",
        { handle := 0, nodes := [{ id := "1", type := some "Start", label := some "Entry" }] })] }
    "jb"
    { handle := 0, nodes := [{ id := "1", type := some "Start", label := some "Entry" }] }
    (by rfl)).2

/-! ## Claim C8 — setData/getData round trip -/

theorem dsAddNodes_append (xs : List JourneyBuilder.JNode) (acc : List JourneyBuilder.JNode)
    (h : ((acc ++ xs).map JourneyBuilder.JNode.id).Nodup) :
    JourneyBuilder.dsAddNodes xs acc = some (acc ++ xs) := by
  induction xs generalizing acc with
  | nil => simp [JourneyBuilder.dsAddNodes]
  | cons n rest ih =>
      have hd : List.Disjoint (acc.map JourneyBuilder.JNode.id) ((n :: rest).map JourneyBuilder.JNode.id) :=
        List.disjoint_of_nodup_append (by simpa using h)
      have hn : n.id ∉ acc.map JourneyBuilder.JNode.id := fun hmem => hd hmem (by simp)
      have hfind : acc.find? (fun m => m.id == n.id) = none := by
        apply List.find?_eq_none.mpr
        intro x hx hbeq
        refine hn ?_
        have hxe : x.id = n.id := by simpa using hbeq
        rw [← hxe]
        exact List.mem_map_of_mem _ hx
      have hstep : JourneyBuilder.dsAddNode n acc = some (acc ++ [n]) := by
        simp [JourneyBuilder.dsAddNode, hfind]
      have hrec := ih (acc ++ [n]) (by simpa using h)
      simp only [JourneyBuilder.dsAddNodes, hstep]
      simpa using hrec

theorem dsAddEdges_append (xs : List JourneyBuilder.JEdge) (acc : List JourneyBuilder.JEdge)
    (h : ((acc ++ xs).map JourneyBuilder.JEdge.id).Nodup) :
    JourneyBuilder.dsAddEdges xs acc = some (acc ++ xs) := by
  induction xs generalizing acc with
  | nil => simp [JourneyBuilder.dsAddEdges]
  | cons e rest ih =>
      have hd : List.Disjoint (acc.map JourneyBuilder.JEdge.id) ((e :: rest).map JourneyBuilder.JEdge.id) :=
        List.disjoint_of_nodup_append (by simpa using h)
      have hn : e.id ∉ acc.map JourneyBuilder.JEdge.id := fun hmem => hd hmem (by simp)
      have hfind : acc.find? (fun m => m.id == e.id) = none := by
        apply List.find?_eq_none.mpr
        intro x hx hbeq
        refine hn ?_
        have hxe : x.id = e.id := by simpa using hbeq
        rw [← hxe]
        exact List.mem_map_of_mem _ hx
      have hstep : JourneyBuilder.dsAddEdge e acc = some (acc ++ [e]) := by
        simp [JourneyBuilder.dsAddEdge, hfind]
      have hrec := ih (acc ++ [e]) (by simpa using h)
      simp only [JourneyBuilder.dsAddEdges, hstep]
      simpa using hrec

/-- C8: `loadData(id, N, E)` (the journey builder's setData) followed by
`getData(id)` returns exactly the styled nodes and the verbatim edges: node
sets differ from N only in derived display fields (ids, types and labels are
preserved), edges are returned unchanged, and the read observes the full
replacement (the whole of N and E, nothing of the previous contents). -/
theorem jb_load_data_get_data_roundtrip (s : JourneyBuilder.St) (cid : String)
    (net : JourneyBuilder.Net) (N : List JourneyBuilder.JNode) (E : List JourneyBuilder.JEdge)
    (h : lookupA cid s.networks = some net)
    (hN : (N.map JourneyBuilder.JNode.id).Nodup) (hE : (E.map JourneyBuilder.JEdge.id).Nodup) :
    ∃ s', JourneyBuilder.loadData cid N E s = some (true, s') ∧
      JourneyBuilder.getData cid s' = some (N.map JourneyBuilder.styleNode, E) ∧
      (N.map JourneyBuilder.styleNode).map JourneyBuilder.JNode.id = N.map JourneyBuilder.JNode.id ∧
      (N.map JourneyBuilder.styleNode).map JourneyBuilder.JNode.type = N.map JourneyBuilder.JNode.type ∧
      (N.map JourneyBuilder.styleNode).map JourneyBuilder.JNode.label = N.map JourneyBuilder.JNode.label := by
  have hids : (N.map JourneyBuilder.styleNode).map JourneyBuilder.JNode.id
      = N.map JourneyBuilder.JNode.id := by
    rw [List.map_map]
    rfl
  have hNs : JourneyBuilder.dsAddNodes (N.map JourneyBuilder.styleNode) []
      = some (N.map JourneyBuilder.styleNode) := by
    apply dsAddNodes_append
    simp only [List.nil_append]
    rw [hids]
    exact hN
  have hifN : (if N.length > 0 then JourneyBuilder.dsAddNodes (N.map JourneyBuilder.styleNode) []
      else some []) = some (N.map JourneyBuilder.styleNode) := by
    by_cases hlen : N.length > 0
    · rw [if_pos hlen]
      exact hNs
    · have hnil : N = [] := List.length_eq_zero.mp (by omega)
      subst hnil
      simp
  have hifE : (if E.length > 0 then JourneyBuilder.dsAddEdges E [] else some []) = some E := by
    by_cases hlen : E.length > 0
    · rw [if_pos hlen]
      exact dsAddEdges_append E [] (by simpa using hE)
    · have hnil : E = [] := List.length_eq_zero.mp (by omega)
      subst hnil
      simp
  refine ⟨{ s with networks := insertA cid { net with nodes := N.map JourneyBuilder.styleNode, edges := E } s.networks }, ?_, ?_, hids, ?_, ?_⟩
  · simp [JourneyBuilder.loadData, h, hifN, hifE]
  · simp [JourneyBuilder.getData, lookupA_insertA_self]
  · rw [List.map_map]
    rfl
  · rw [List.map_map]
    rfl

/-- Witness for C8's theorem: a Start node, an End node and one edge survive
the round trip (nodes styled, edges verbatim). -/
theorem jb_load_data_get_data_roundtrip_witness :
    ∃ s', JourneyBuilder.loadData "jb"
        [{ id := "1", type := some "Start" }, { id := "2", type := some "End" }]
        [{ id := "e1", fromId := "1", toId := "2" }]
        { networks := [("jb", { handle := 0 })] } = some (true, s') ∧
      JourneyBuilder.getData "jb" s'
        = some ([{ id := "1", type := some "Start" },
                 { id := "2", type := some "End" }].map JourneyBuilder.styleNode,
                [{ id := "e1", fromId := "1", toId := "2" }]) := by
  obtain ⟨s', h1, h2, _, _, _⟩ := jb_load_data_get_data_roundtrip
    { networks := [("jb", { handle := 0 })] } "jb" { handle := 0 }
    [{ id := "1", type := some "Start" }, { id := "2", type := some "End" }]
    [{ id := "e1", fromId := "1", toId := "2" }]
    (by rfl) (by decide) (by decide)
  exact ⟨s', h1, h2⟩
